import Mathlib

/-!
# Verification of the Dropship payout engine and RTS/RTO detector

Shallow embedding of `DatabaseStorage.calculatePayouts` and
`DatabaseStorage.autoDetectRtsRtoReconciliations` (src/unnamed/part_001),
together with the row types from src/shared/schema.ts.

Monetary amounts are rationals (the JS numbers in play are decimal(10,2)
database values and small integer arithmetic on them); timestamps are
integers; JS `Math.round` is embedded as floor (x + 1/2), which matches
its ties-toward-positive-infinity behaviour.
-/

namespace Dropship

/-- JS `Math.round`: nearest integer, ties rounded toward positive infinity. -/
def jsRound (q : ℚ) : ℤ := ⌊q + 1/2⌋

/-- JS `Math.round(x * 100) / 100` as used throughout the source. -/
def round2 (q : ℚ) : ℚ := (jsRound (q * 100) : ℚ) / 100

/-- Lower-cased character list of a string: `s.toLowerCase()` viewed through
`String.data` (kept as `List Char` so that everything reduces structurally). -/
def lc (s : String) : List Char := s.data.map Char.toLower

/-- Tests whether `pat` is a prefix of the character list `s`. -/
def leadMatch : List Char → List Char → Bool
  | _, [] => true
  | [], _ :: _ => false
  | c :: cs, p :: ps => c == p && leadMatch cs ps

/-- JS `String.prototype.includes` over character lists: some suffix of `s`
starts with `pat`. -/
def chContains : List Char → List Char → Bool
  | [], pat => pat.isEmpty
  | c :: cs, pat => leadMatch (c :: cs) pat || chContains cs pat

/-- JS `String.prototype.trim` over character lists: strip whitespace from
both ends. -/
def trimCh (l : List Char) : List Char :=
  ((l.dropWhile (·.isWhitespace)).reverse.dropWhile (·.isWhitespace)).reverse

/-- Embeds `order.status.toLowerCase().includes('delivered')` (part_001 line 744). -/
def isDeliveredStatus (status : String) : Bool :=
  chContains (lc status) "delivered".data

/-- Embeds `status.toLowerCase() === 'cancelled' || status.toLowerCase().includes('cancel')`
(part_001 lines 755-757). -/
def isCancelledStatus (status : String) : Bool :=
  lc status == "cancelled".data || chContains (lc status) "cancel".data

/-- Embeds `status.toLowerCase().includes('rts') || includes('rto') || order.rtsDate`
(part_001 lines 745-748). -/
def isRtsRtoStatus (status : String) (rtsDate : Option Int) : Bool :=
  chContains (lc status) "rts".data || chContains (lc status) "rto".data ||
    rtsDate.isSome

/-- Status categories of the Order Classifier (spec section 4.2). -/
inductive StatusCat where
  | Delivered
  | Cancelled
  | ReturnInProgress
  | Other
deriving DecidableEq

/-- The spec's `classifyStatus` (section 4.2), assembled from the code's
inline predicates with the cancellation check short-circuiting first. -/
def classifyStatus (status : String) (rtsDate : Option Int) : StatusCat :=
  if isCancelledStatus status then .Cancelled
  else if isDeliveredStatus status then .Delivered
  else if isRtsRtoStatus status rtsDate then .ReturnInProgress
  else .Other

/-- Embeds `String(order.mode || '').toLowerCase().trim()` (part_001 lines 820-822). -/
def normMode (mode : Option String) : List Char := trimCh (lc (mode.getD ""))

/-- Embeds `paymentMode === 'cod' || paymentMode === '' || paymentMode === null`
(part_001 lines 823-824; the `=== null` disjunct is dead after `String()`). -/
def isCodOrder (mode : Option String) : Bool :=
  normMode mode == "cod".data || normMode mode == []

/-- One `order_data` row (src/shared/schema.ts lines 17-38). `id` is the
insertion-sequence proxy the detector sorts histories by. -/
structure OrderRow where
  id : Nat
  orderId : String
  dropshipperEmail : String
  productUid : String
  waybill : String
  productName : String
  sku : String
  qty : ℕ
  productValue : ℚ
  mode : Option String
  status : String
  orderDate : Int
  deliveredDate : Option Int
  rtsDate : Option Int
  shippingProvider : String
deriving DecidableEq

/-- One `product_prices` row (schema.ts lines 40-51): keyed by
(dropshipperEmail, productUid), carrying cost and optional weight. -/
structure PriceEntry where
  dropshipperEmail : String
  productUid : String
  productWeight : Option ℚ
  productCostPerUnit : ℚ
deriving DecidableEq

/-- One `shipping_rates` row (schema.ts lines 53-61): keyed by
(productUid, productWeight, shippingProvider), carrying the flat rate. -/
structure RateEntry where
  productUid : String
  productWeight : ℚ
  shippingProvider : String
  rate : ℚ
deriving DecidableEq

/-- Embeds the lookup `priceMap.get(email + pipe + uid) || 0` (part_001 lines 684-689, 833-835):
the configured per-unit cost, or 0 when absent. -/
def priceLookup (prices : List PriceEntry) (email uid : String) : ℚ :=
  match prices.find? (fun p => p.dropshipperEmail == email && p.productUid == uid) with
  | some p => p.productCostPerUnit
  | none => 0

/-- Embeds `prices.find(...)?.productWeight || 0.5` (part_001 lines 764-770): the
configured weight, with JS falsy coercion sending both a missing entry, a
null weight and a 0 weight to the 0.5 default. -/
def resolveWeight (prices : List PriceEntry) (email uid : String) : ℚ :=
  match prices.find? (fun p => p.dropshipperEmail == email && p.productUid == uid) with
  | some p =>
    match p.productWeight with
    | some w => if w == 0 then 0.5 else w
    | none => 0.5
  | none => 0.5

/-- Embeds `rateMap.get(exactKey) || 0` followed by `exactRate > 0 ? exactRate : 0`
(part_001 lines 774-778): the exact (productUid, weight, provider) rate when
positive, else 0. -/
def exactRate (rates : List RateEntry) (uid : String) (w : ℚ) (provider : String) : ℚ :=
  match rates.find? (fun r =>
      r.productUid == uid && decide (r.productWeight = w) && r.shippingProvider == provider) with
  | some r => if 0 < r.rate then r.rate else 0
  | none => 0

/-- The any-weight fallback loop (part_001 lines 780-793): first configured
rate for (productUid, provider) with a positive rate, else 0. -/
def anyWeightRate (rates : List RateEntry) (uid provider : String) : ℚ :=
  match rates.find? (fun r =>
      r.productUid == uid && r.shippingProvider == provider && decide (0 < r.rate)) with
  | some r => r.rate
  | none => 0

/-- The flat shipping rate used for the accumulated shipping cost
(part_001 lines 772-797): exact match when positive, else the any-weight
fallback, else 0 — the source comment is explicit that no default table is
applied here ("don't use fallback rates"). -/
def flatShippingRate (rates : List RateEntry) (uid : String) (w : ℚ) (provider : String) : ℚ :=
  let e := exactRate rates uid w provider
  if 0 < e then e else anyWeightRate rates uid provider

/-- The hardcoded per-carrier default table with global default 25
(part_001 lines 885-897), used only for the displayed `shippingRate` field. -/
def defaultRate (provider : String) : ℚ :=
  if provider == "Delhivery" then 25
  else if provider == "Bluedart" then 30
  else if provider == "Ekart" then 20
  else if provider == "Ekart-Px" then 20
  else if provider == "DTDC" then 25
  else if provider == "Ecom Express" then 22
  else if provider == "Shadowfax" then 20
  else if provider == "Trackon" then 25
  else 25

/-- The displayed `shippingRate` row field (part_001 lines 856-898): the
configured flat rate when one resolves, otherwise the carrier default. -/
def displayShippingRate (rates : List RateEntry) (uid : String) (w : ℚ)
    (provider : String) : ℚ :=
  let r := flatShippingRate rates uid w provider
  if r == 0 then defaultRate provider else r

/-- One emitted payout row (the claim-relevant fields of the object pushed at
part_001 lines 900-941). -/
structure PayoutRow where
  orderId : String
  waybill : String
  qty : ℕ
  status : String
  productCostPerUnit : ℚ
  productWeight : ℚ
  shippingRate : ℚ
  shippingCost : ℚ
  productCost : ℚ
  payable : ℚ
  deliveredQty : ℕ
  codReceived : ℚ
  codAmountRupees : ℚ
deriving DecidableEq

/-- The mutable accumulators of `calculatePayouts` (part_001 lines 696-713).
`rtsRtoReversalTotal` is initialised to 0 and never reassigned in the source. -/
structure PayoutState where
  shippingTotal : ℚ
  codTotal : ℚ
  productCostTotal : ℚ
  rtsRtoReversalTotal : ℚ
  uniqueShippingOrders : List String
  uniqueProductAmountOrders : List String
  uniqueCodOrders : List String
  rows : List PayoutRow
deriving DecidableEq

def initState : PayoutState :=
  { shippingTotal := 0, codTotal := 0, productCostTotal := 0,
    rtsRtoReversalTotal := 0, uniqueShippingOrders := [],
    uniqueProductAmountOrders := [], uniqueCodOrders := [], rows := [] }

/-- JS `Set.prototype.add`: append the element when not yet present. -/
def addUnique (l : List String) (x : String) : List String :=
  if l.contains x then l else l ++ [x]

/-- The date-window parameters of a payout calculation request.
`delTo` stands for the instant `new Date(deliveredDateTo + ' 23:59:59')`
(part_001 line 741), i.e. the inclusive end of the boundary calendar day. -/
structure PayoutParams where
  orderFrom : Int
  orderTo : Int
  delFrom : Int
  delTo : Int
  dropshipperEmail : Option String

/-- Embeds `orderDate >= new Date(orderDateFrom) && orderDate <= new Date(orderDateTo)`
(part_001 lines 736-738). -/
def inOrderRange (p : PayoutParams) (o : OrderRow) : Bool :=
  decide (p.orderFrom ≤ o.orderDate) && decide (o.orderDate ≤ p.orderTo)

/-- Embeds `deliveredDate && deliveredDate >= from && deliveredDate <= to+'23:59:59'`
(part_001 lines 739-742); a null delivered date is falsy. -/
def inDeliveredRange (p : PayoutParams) (o : OrderRow) : Bool :=
  match o.deliveredDate with
  | some d => decide (p.delFrom ≤ d) && decide (d ≤ p.delTo)
  | none => false

/-- One iteration of the per-line-item loop of `calculatePayouts`
(part_001 lines 730-942), as a state transformer. The `continue` for a
cancelled order inside the order window returns the state unchanged; the
`Number(order.productValue) || 0` coercion is the identity on the
decimal(10,2) column value. -/
def processOrder (prices : List PriceEntry) (rates : List RateEntry)
    (p : PayoutParams) (st : PayoutState) (o : OrderRow) : PayoutState :=
  let inOrd := inOrderRange p o
  let inDel := inDeliveredRange p o
  let isDel := isDeliveredStatus o.status
  let isCan := isCancelledStatus o.status
  if isCan && inOrd then st
  else
    let w := resolveWeight prices o.dropshipperEmail o.productUid
    let rate := flatShippingRate rates o.productUid w o.shippingProvider
    let shippingCost : ℚ :=
      if inOrd && !isCan then round2 ((o.qty : ℚ) * rate) else 0
    let st1 : PayoutState :=
      if inOrd && !isCan then
        { st with
          shippingTotal := st.shippingTotal + shippingCost,
          uniqueShippingOrders :=
            if 0 < shippingCost then addUnique st.uniqueShippingOrders o.orderId
            else st.uniqueShippingOrders }
      else st
    let deliveredNow := isDel && inDel
    let isCod := isCodOrder o.mode
    let codReceived : ℚ := if deliveredNow && isCod then o.productValue else 0
    let unitCost := priceLookup prices o.dropshipperEmail o.productUid
    let productCost : ℚ := if deliveredNow then (o.qty : ℚ) * unitCost else 0
    let st2 : PayoutState :=
      if deliveredNow then
        { st1 with
          codTotal := if isCod then st1.codTotal + codReceived else st1.codTotal,
          uniqueCodOrders :=
            if isCod then addUnique st1.uniqueCodOrders o.orderId
            else st1.uniqueCodOrders,
          productCostTotal := st1.productCostTotal + productCost,
          uniqueProductAmountOrders :=
            addUnique st1.uniqueProductAmountOrders o.orderId }
      else st1
    let payable := codReceived - shippingCost - productCost
    let row : PayoutRow :=
      { orderId := o.orderId, waybill := o.waybill, qty := o.qty,
        status := o.status, productCostPerUnit := unitCost, productWeight := w,
        shippingRate := displayShippingRate rates o.productUid w o.shippingProvider,
        shippingCost := shippingCost, productCost := productCost,
        payable := payable,
        deliveredQty := if deliveredNow then o.qty else 0,
        codReceived := round2 codReceived,
        codAmountRupees :=
          round2 (codReceived / (if o.qty = 0 then 1 else (o.qty : ℚ))) }
    { st2 with rows := st2.rows ++ [row] }

/-- Key insertion in first-appearance order (JS `Map` key order). -/
def addLast (l : List String) (x : String) : List String :=
  if l.contains x then l else l ++ [x]

/-- The distinct order identifiers in order of first appearance. -/
def orderIdsInOrder (os : List OrderRow) : List String :=
  os.foldl (fun acc o => addLast acc o.orderId) []

/-- The `orderGroups` grouping (part_001 lines 716-728) flattened back in the
iteration order of the group/item loops. -/
def groupByOrderId (os : List OrderRow) : List OrderRow :=
  ((orderIdsInOrder os).map (fun k => os.filter (fun o => o.orderId == k))).flatten

/-- The full accumulator loop of `calculatePayouts` over the grouped items. -/
def processOrders (prices : List PriceEntry) (rates : List RateEntry)
    (p : PayoutParams) (os : List OrderRow) : PayoutState :=
  (groupByOrderId os).foldl (processOrder prices rates p) initState

/-- The summary object (part_001 lines 943-966). -/
structure PayoutSummary where
  shippingTotal : ℤ
  codTotal : ℤ
  productCostTotal : ℤ
  rtsRtoReversalTotal : ℤ
  finalPayable : ℤ
  ordersWithShippingCharges : ℕ
  ordersWithProductAmount : ℕ
  ordersWithCodAmount : ℕ
  totalOrdersProcessed : ℕ
deriving DecidableEq

/-- Build the summary from the raw accumulators: `finalPayable` is the single
`Math.round` of the raw aggregate difference (part_001 lines 943-945), while
the individual totals are rounded afterwards for display (lines 948-950). -/
def mkSummary (st : PayoutState) : PayoutSummary :=
  { shippingTotal := jsRound st.shippingTotal,
    codTotal := jsRound st.codTotal,
    productCostTotal := jsRound st.productCostTotal,
    rtsRtoReversalTotal := jsRound st.rtsRtoReversalTotal,
    finalPayable := jsRound (st.codTotal - st.shippingTotal -
      st.productCostTotal + st.rtsRtoReversalTotal),
    ordersWithShippingCharges := st.uniqueShippingOrders.length,
    ordersWithProductAmount := st.uniqueProductAmountOrders.length,
    ordersWithCodAmount := st.uniqueCodOrders.length,
    totalOrdersProcessed := st.rows.length }

structure PayoutResult where
  summary : PayoutSummary
  rows : List PayoutRow
deriving DecidableEq

/-- The hardcoded deny-list of system emails, matched case-insensitively
(part_001 lines 649-661). -/
def isExcludedEmail (email : String) : Bool :=
  lc email == "akash@shopperskart.shop".data ||
    lc email == "buzwidetechnologypvtltd@gmail.com".data

/-- The optional case-insensitive dropshipper filter (part_001 lines 663-668). -/
def matchesDropshipper (filter : Option String) (email : String) : Bool :=
  match filter with
  | some e => lc email == lc e
  | none => true

/-- The in-scope orders of a payout calculation: deny-list plus optional
dropshipper filter (part_001 lines 648-672). -/
def scopedPayoutOrders (os : List OrderRow) (p : PayoutParams) : List OrderRow :=
  os.filter (fun o =>
    !(isExcludedEmail o.dropshipperEmail) &&
      matchesDropshipper p.dropshipperEmail o.dropshipperEmail)

/-- The price rows after the optional dropshipper filter (part_001 lines
678-681); the rate rows are not filtered in the source. -/
def scopedPrices (prices : List PriceEntry) (p : PayoutParams) : List PriceEntry :=
  match p.dropshipperEmail with
  | some e => prices.filter (fun pr => lc pr.dropshipperEmail == lc e)
  | none => prices

/-- The raw (unrounded) accumulator state a payout calculation ends with. -/
def rawPayoutState (os : List OrderRow) (prices : List PriceEntry)
    (rates : List RateEntry) (p : PayoutParams) : PayoutState :=
  processOrders (scopedPrices prices p) rates p (scopedPayoutOrders os p)

/-- Embeds `DatabaseStorage.calculatePayouts` (part_001 lines 622-967): filter the
orders (deny-list, optional dropshipper), filter the prices to the
dropshipper when given (the rates are not filtered in the source), run the
accumulator loop over the grouped items, and emit summary plus rows. -/
def calculatePayouts (os : List OrderRow) (prices : List PriceEntry)
    (rates : List RateEntry) (p : PayoutParams) : PayoutResult :=
  { summary := mkSummary (rawPayoutState os prices rates p),
    rows := (rawPayoutState os prices rates p).rows }

/-! ## RTS/RTO detector (part_001 lines 2467-2668) -/

/-- One `payout_log` row (schema.ts lines 64-76), claim-relevant fields. -/
structure PayoutLogEntry where
  orderId : String
  paidAmount : ℚ
deriving DecidableEq

inductive Confidence where
  | high
  | medium
  | low
deriving DecidableEq

/-- One suggestion object pushed by the detector (part_001 lines 2625-2638). -/
structure Suggestion where
  orderId : String
  waybill : String
  dropshipperEmail : String
  productUid : String
  suggestedReversalAmount : ℚ
  originalPaidAmount : ℚ
  rtsRtoStatus : String
  confidence : Confidence
  previousStatus : Option String
  statusChangeDetected : Bool
deriving DecidableEq

/-- The exact-match status list of the detector (part_001 lines 2516, 2570). -/
def rtsExactStatuses : List String := ["RTS", "RTO", "RTO-Dispatched", "RTO-IT"]

/-- Membership of the current row in `currentRtsRtoOrders`
(part_001 lines 2510-2520). -/
def isCurrentRtsRto (pFrom pTo : Int) (o : OrderRow) : Bool :=
  rtsExactStatuses.contains o.status &&
    decide (pFrom ≤ o.orderDate) && decide (o.orderDate ≤ pTo)

/-- Insertion of one row into an id-sorted history (ascending ids, stable). -/
def insertById (o : OrderRow) : List OrderRow → List OrderRow
  | [] => [o]
  | b :: bs => if o.id ≤ b.id then o :: b :: bs else b :: insertById o bs

/-- Embeds `orderHistory.sort((a, b) => a.id - b.id)` (part_001 line 2556):
ascending stable sort by the insertion-sequence id. -/
def sortById : List OrderRow → List OrderRow
  | [] => []
  | a :: as => insertById a (sortById as)

/-- The snapshot history of one order identifier: the grouped rows
(part_001 lines 2500-2507) sorted chronologically by id. -/
def historyFor (allOrders : List OrderRow) (oid : String) : List OrderRow :=
  sortById (allOrders.filter (fun o => o.orderId == oid))

/-- Embeds `prevOrder.status.toLowerCase().includes('delivered') || includes('del')`
(part_001 lines 2568-2569). -/
def delMatch (status : String) : Bool :=
  chContains (lc status) "delivered".data || chContains (lc status) "del".data

/-- The transition scan (part_001 lines 2562-2581): a pair of *adjacent*
snapshots where the earlier matches delivered and the immediately following
one has an exact RTS/RTO status; `break` on the first occurrence. -/
def detectAdjacent : List OrderRow → Bool
  | a :: b :: rest =>
    (delMatch a.status && rtsExactStatuses.contains b.status) ||
      detectAdjacent (b :: rest)
  | _ => false

/-- The `previousDeliveredStatus` recorded at the first detected adjacent
pair (part_001 lines 2559, 2574). -/
def firstDeliveredBefore : List OrderRow → Option String
  | a :: b :: rest =>
    if delMatch a.status && rtsExactStatuses.contains b.status then some a.status
    else firstDeliveredBefore (b :: rest)
  | _ => none

/-- Embeds `new Map(priorPayouts.map(p => [p.orderId, p])).get(orderId)`
(part_001 lines 2538-2545, 2583): the last entry wins on duplicate keys. -/
def payoutFind (payouts : List PayoutLogEntry) (oid : String) :
    Option PayoutLogEntry :=
  payouts.foldl (fun acc q => if q.orderId == oid then some q else acc) none

/-- The heuristic estimate of the no-payout branches (part_001 lines
2599-2604, 2615-2620): `max(0, codAmount − 25 − codAmount × 0.3)`.
`currentOrder.codAmount` reads a column that does not exist on `order_data`
(schema.ts lines 17-38), so `parseFloat(undefined) || 0` makes it 0. -/
def estReversal (codAmount : ℚ) : ℚ :=
  max 0 (codAmount - 25 - codAmount * (3/10))

/-- The suggestion built for one current RTS/RTO row (part_001 lines
2553-2638), covering the 4-way confidence ladder. -/
def mkSuggestion (allOrders : List OrderRow) (payouts : List PayoutLogEntry)
    (o : OrderRow) : Suggestion :=
  let history := historyFor allOrders o.orderId
  let changed := detectAdjacent history
  let prevStatus := firstDeliveredBefore history
  let priorPayout := payoutFind payouts o.orderId
  let codAmount : ℚ := 0
  let base : Suggestion :=
    { orderId := o.orderId, waybill := o.waybill,
      dropshipperEmail := o.dropshipperEmail, productUid := o.productUid,
      suggestedReversalAmount := 0, originalPaidAmount := 0,
      rtsRtoStatus := o.status, confidence := .low,
      previousStatus := prevStatus, statusChangeDetected := changed }
  match changed, priorPayout with
  | true, some pp =>
    { base with
      suggestedReversalAmount := round2 pp.paidAmount,
      originalPaidAmount := round2 pp.paidAmount, confidence := .high }
  | true, none =>
    { base with
      suggestedReversalAmount := round2 (estReversal codAmount),
      originalPaidAmount := 0, confidence := .high }
  | false, some pp =>
    { base with
      suggestedReversalAmount := round2 pp.paidAmount,
      originalPaidAmount := round2 pp.paidAmount, confidence := .medium }
  | false, none =>
    { base with
      suggestedReversalAmount := round2 (estReversal codAmount),
      originalPaidAmount := 0, confidence := .low }

def confVal : Confidence → ℕ
  | .high => 3
  | .medium => 2
  | .low => 1

/-- The output comparator (part_001 lines 2641-2648): confidence descending,
then reversal amount descending. `sugBefore a b` says `a` may precede `b`. -/
def sugBefore (a b : Suggestion) : Bool :=
  if confVal a.confidence = confVal b.confidence then
    decide (b.suggestedReversalAmount ≤ a.suggestedReversalAmount)
  else decide (confVal b.confidence < confVal a.confidence)

def insertSug (a : Suggestion) : List Suggestion → List Suggestion
  | [] => [a]
  | b :: bs => if sugBefore a b then a :: b :: bs else b :: insertSug a bs

/-- Stable sort of the suggestions by the output comparator. -/
def sortSugs : List Suggestion → List Suggestion
  | [] => []
  | a :: as => insertSug a (sortSugs as)

/-- The order rows after the detector's optional exact-match dropshipper
filter (part_001 lines 2492-2498). -/
def scopedOf (allOrders : List OrderRow) (dropshipperEmail : Option String) :
    List OrderRow :=
  match dropshipperEmail with
  | some e => allOrders.filter (fun o => o.dropshipperEmail == e)
  | none => allOrders

/-- The current RTS/RTO rows surviving the already-reconciled skip
(part_001 lines 2549-2551). -/
def keptCurrentRows (allOrders : List OrderRow) (ledger : List String)
    (pFrom pTo : Int) (dropshipperEmail : Option String) : List OrderRow :=
  ((scopedOf allOrders dropshipperEmail).filter (isCurrentRtsRto pFrom pTo)).filter
    (fun o => !(ledger.contains o.orderId))

/-- Embeds `DatabaseStorage.autoDetectRtsRtoReconciliations` (part_001 lines
2467-2668). `ledger` is the set of order identifiers present in the
`rts_rto_reconciliation` table (the `reconciledSet` of lines 2524-2535);
`payouts` the `payout_log` rows. -/
def autoDetectRtsRtoReconciliations (allOrders : List OrderRow)
    (payouts : List PayoutLogEntry) (ledger : List String)
    (pFrom pTo : Int) (dropshipperEmail : Option String) : List Suggestion :=
  sortSugs ((keptCurrentRows allOrders ledger pFrom pTo dropshipperEmail).map
    (mkSuggestion (scopedOf allOrders dropshipperEmail) payouts))

/-- Embeds `DatabaseStorage.processRtsRtoReconciliation` (part_001 lines 2441-2465),
projected to the ledger of reconciled order identifiers: a pure insert. -/
def confirmReconciliation (ledger : List String) (oid : String) : List String :=
  ledger ++ [oid]

/-- Some adjacent pair of the history has a delivered-matching earlier status
immediately followed by an exact RTS/RTO status: the condition the source's
transition scan actually tests. -/
def AdjacentTransition (l : List OrderRow) : Prop :=
  ∃ i, ∃ h : i + 1 < l.length,
    delMatch (l.get ⟨i, Nat.lt_of_succ_lt h⟩).status = true ∧
    rtsExactStatuses.contains (l.get ⟨i + 1, h⟩).status = true

/-! ## Concrete inputs used by counterexamples and witnesses -/

/-- Shared date windows: order window and delivery window both [0, 20]. -/
def prmsW : PayoutParams :=
  { orderFrom := 0, orderTo := 20, delFrom := 0, delTo := 20,
    dropshipperEmail := none }

/-- A non-cancelled, non-delivered line with qty 4, carrier Delhivery, order
date in window, and no shipping rate configured for its product. -/
def cxNoRateOrder : OrderRow :=
  { id := 1, orderId := "O1", dropshipperEmail := "d@x.com", productUid := "P1",
    waybill := "W1", productName := "Widget", sku := "S", qty := 4,
    productValue := 100, mode := some "COD", status := "Shipped",
    orderDate := 10, deliveredDate := none, rtsDate := none,
    shippingProvider := "Delhivery" }

/-- A cancelled line with order date in window and qty 3. -/
def wCancelOrder : OrderRow :=
  { id := 2, orderId := "C1", dropshipperEmail := "d@x.com", productUid := "P1",
    waybill := "W2", productName := "Widget", sku := "S", qty := 3,
    productValue := 100, mode := some "COD", status := "Cancelled",
    orderDate := 10, deliveredDate := none, rtsDate := none,
    shippingProvider := "Delhivery" }

/-- A rate configured for the cancelled/no-rate product family used to show
"regardless of rate configuration". -/
def wRate : RateEntry :=
  { productUid := "P1", productWeight := 0.5, shippingProvider := "Delhivery",
    rate := 40 }

/-- A delivered prepaid line, qty 2, delivered date in window. -/
def wPrepaidOrder : OrderRow :=
  { id := 3, orderId := "D1", dropshipperEmail := "d@x.com", productUid := "P2",
    waybill := "W3", productName := "Gadget", sku := "S2", qty := 2,
    productValue := 500, mode := some "Prepaid", status := "Delivered",
    orderDate := 30, deliveredDate := some 15, rtsDate := none,
    shippingProvider := "Delhivery" }

/-- The configured unit cost 50 for the delivered prepaid line's product. -/
def wPrice : PriceEntry :=
  { dropshipperEmail := "d@x.com", productUid := "P2", productWeight := some 1,
    productCostPerUnit := 50 }

/-- A delivered COD line, qty 3, stored monetary value 250.75, delivered date
in window. -/
def wCodOrder : OrderRow :=
  { id := 4, orderId := "D2", dropshipperEmail := "d@x.com", productUid := "P2",
    waybill := "W4", productName := "Gadget", sku := "S2", qty := 3,
    productValue := 250.75, mode := none, status := "Delivered",
    orderDate := 30, deliveredDate := some 15, rtsDate := none,
    shippingProvider := "Delhivery" }

/-- Delivered COD line for the single-rounding example: raw COD 1000.60. -/
def exCodOrder : OrderRow :=
  { id := 5, orderId := "E1", dropshipperEmail := "d@x.com", productUid := "PA",
    waybill := "W5", productName := "Alpha", sku := "SA", qty := 1,
    productValue := 1000.60, mode := some "COD", status := "Delivered",
    orderDate := 100, deliveredDate := some 15, rtsDate := none,
    shippingProvider := "Delhivery" }

/-- Shipped line for the single-rounding example: raw shipping 3 × 66.8. -/
def exShipOrder : OrderRow :=
  { id := 6, orderId := "E2", dropshipperEmail := "d@x.com", productUid := "PB",
    waybill := "W6", productName := "Beta", sku := "SB", qty := 3,
    productValue := 10, mode := some "Prepaid", status := "Shipped",
    orderDate := 10, deliveredDate := none, rtsDate := none,
    shippingProvider := "X1" }

/-- Unit cost 50 for the delivered line of the single-rounding example. -/
def exPrice : PriceEntry :=
  { dropshipperEmail := "d@x.com", productUid := "PA", productWeight := some 1,
    productCostPerUnit := 50 }

/-- Configured flat rate 66.8 for the shipped line of the example. -/
def exRate : RateEntry :=
  { productUid := "PB", productWeight := 0.5, shippingProvider := "X1",
    rate := 66.8 }

/-- Detector history for order T1: Delivered, then Shipped, then RTO —
a non-adjacent delivered-to-returned regression. -/
def dT1 : OrderRow :=
  { id := 1, orderId := "T1", dropshipperEmail := "d@x.com", productUid := "P1",
    waybill := "W1", productName := "Widget", sku := "S", qty := 1,
    productValue := 100, mode := some "COD", status := "Delivered",
    orderDate := 10, deliveredDate := some 10, rtsDate := none,
    shippingProvider := "Delhivery" }

def dT2 : OrderRow :=
  { dT1 with id := 2, status := "Shipped", deliveredDate := none }

def dT3 : OrderRow :=
  { dT1 with id := 3, status := "RTO", deliveredDate := none }

/-- Detector history for order A1: Delivered immediately followed by RTO. -/
def dA1 : OrderRow :=
  { id := 1, orderId := "A1", dropshipperEmail := "d@x.com", productUid := "P1",
    waybill := "W1", productName := "Widget", sku := "S", qty := 1,
    productValue := 100, mode := some "COD", status := "Delivered",
    orderDate := 10, deliveredDate := some 10, rtsDate := none,
    shippingProvider := "Delhivery" }

def dA2 : OrderRow :=
  { dA1 with id := 2, status := "RTO", deliveredDate := none }

/-- A second in-window RTO snapshot of order A1, used to show that the
detector emits one suggestion per current row rather than per order. -/
def dA3 : OrderRow :=
  { dA1 with id := 3, status := "RTO", deliveredDate := none, orderDate := 11 }

/-- A prior payout of 300 for order A1. -/
def payoutA1 : PayoutLogEntry := { orderId := "A1", paidAmount := 300 }

/-! ## Helper lemmas -/

theorem round2_zero : round2 0 = 0 := by
  unfold round2 jsRound
  norm_num

theorem round2_intCast_div (n : ℤ) : round2 ((n : ℚ) / 100) = (n : ℚ) / 100 := by
  unfold round2 jsRound
  have h : ((n : ℚ) / 100) * 100 = (n : ℚ) := by
    field_simp
  rw [h, add_comm, Int.floor_add_int]
  norm_num

theorem classify_cancelled_iff (s : String) (rd : Option Int) :
    classifyStatus s rd = .Cancelled ↔ isCancelledStatus s = true := by
  unfold classifyStatus
  by_cases h : isCancelledStatus s = true <;> simp [h] <;>
    split <;> simp_all <;> split <;> simp_all

theorem classify_delivered_iff (s : String) (rd : Option Int) :
    classifyStatus s rd = .Delivered ↔
      (isCancelledStatus s = false ∧ isDeliveredStatus s = true) := by
  unfold classifyStatus
  by_cases h1 : isCancelledStatus s = true <;>
    by_cases h2 : isDeliveredStatus s = true <;> simp_all <;>
      split <;> simp_all

theorem processOrder_cancelled_inWindow (prices : List PriceEntry)
    (rates : List RateEntry) (p : PayoutParams) (st : PayoutState) (o : OrderRow)
    (hc : isCancelledStatus o.status = true) (hw : inOrderRange p o = true) :
    processOrder prices rates p st o = st := by
  simp [processOrder, hc, hw]

/-! ## Claims -/

/-- C3: a line item whose status classifies as cancelled and whose order date
falls within the order window contributes exactly 0 to the shipping total
and does not add its order identifier to the deduplicated
ordersWithShippingCharges set, regardless of configured shipping rates
(the source skips such an item entirely, part_001 lines 759-762). -/
theorem claim_C3_cancelled_zero_shipping (prices : List PriceEntry)
    (rates : List RateEntry) (p : PayoutParams) (st : PayoutState) (o : OrderRow)
    (hc : classifyStatus o.status o.rtsDate = .Cancelled)
    (hw : inOrderRange p o = true) :
    (processOrder prices rates p st o).shippingTotal = st.shippingTotal ∧
    (processOrder prices rates p st o).uniqueShippingOrders
      = st.uniqueShippingOrders := by
  have h := processOrder_cancelled_inWindow prices rates p st o
    ((classify_cancelled_iff _ _).mp hc) hw
  rw [h]
  exact ⟨rfl, rfl⟩

/-- Witness for C3: a cancelled in-window order with qty 3 and a configured
rate of 40 contributes nothing. -/
theorem claim_C3_witness :
    (processOrder [] [wRate] prmsW initState wCancelOrder).shippingTotal
      = initState.shippingTotal ∧
    (processOrder [] [wRate] prmsW initState wCancelOrder).uniqueShippingOrders
      = initState.uniqueShippingOrders :=
  claim_C3_cancelled_zero_shipping [] [wRate] prmsW initState wCancelOrder
    (by decide) (by decide)

/-- C10: a cancelled line item with order date in the order window is skipped
entirely: the state (hence every total, every set and the rows list) is
unchanged, so it appears nowhere in rows[] and is not counted in
totalOrdersProcessed, which is the length of rows. -/
theorem claim_C10_cancelled_no_row (prices : List PriceEntry)
    (rates : List RateEntry) (p : PayoutParams) (st : PayoutState) (o : OrderRow)
    (hc : classifyStatus o.status o.rtsDate = .Cancelled)
    (hw : inOrderRange p o = true) :
    (processOrder prices rates p st o).rows = st.rows ∧
    processOrder prices rates p st o = st ∧
    (mkSummary (processOrder prices rates p st o)).totalOrdersProcessed
      = (mkSummary st).totalOrdersProcessed := by
  have h := processOrder_cancelled_inWindow prices rates p st o
    ((classify_cancelled_iff _ _).mp hc) hw
  rw [h]
  exact ⟨rfl, rfl, rfl⟩

/-- Witness for C10: the concrete cancelled order emits no row. -/
theorem claim_C10_witness :
    (processOrder [wPrice] [wRate] prmsW initState wCancelOrder).rows
      = initState.rows ∧
    processOrder [wPrice] [wRate] prmsW initState wCancelOrder = initState ∧
    (mkSummary (processOrder [wPrice] [wRate] prmsW initState
      wCancelOrder)).totalOrdersProcessed
      = (mkSummary initState).totalOrdersProcessed :=
  claim_C10_cancelled_no_row [wPrice] [wRate] prmsW initState wCancelOrder
    (by decide) (by decide)

/-- C4: a line item classifying as delivered whose delivered date falls in
the delivery window accumulates quantity × resolved unit cost into
productCostTotal and adds its order identifier to the deduplicated
product-orders set, regardless of payment mode; when its mode is not COD it
contributes nothing to codTotal. -/
theorem claim_C4_delivered_product_cost (prices : List PriceEntry)
    (rates : List RateEntry) (p : PayoutParams) (st : PayoutState) (o : OrderRow)
    (hcls : classifyStatus o.status o.rtsDate = .Delivered)
    (hW : inDeliveredRange p o = true) :
    (processOrder prices rates p st o).productCostTotal
      = st.productCostTotal +
        (o.qty : ℚ) * priceLookup prices o.dropshipperEmail o.productUid ∧
    (processOrder prices rates p st o).uniqueProductAmountOrders
      = addUnique st.uniqueProductAmountOrders o.orderId ∧
    (isCodOrder o.mode = false →
      (processOrder prices rates p st o).codTotal = st.codTotal) := by
  obtain ⟨hC, hD⟩ := (classify_delivered_iff _ _).mp hcls
  cases hIO : inOrderRange p o <;> cases hCod : isCodOrder o.mode <;>
    simp [processOrder, hD, hC, hW, hIO, hCod]

/-- Witness for C4: a delivered prepaid line with qty 2 and configured unit
cost 50 adds 100 to productCostTotal, marks its order in the product-orders
set, and leaves codTotal unchanged. -/
theorem claim_C4_witness :
    ((processOrder [wPrice] [] prmsW initState wPrepaidOrder).productCostTotal
      = initState.productCostTotal +
        ((wPrepaidOrder.qty : ℚ) *
          priceLookup [wPrice] wPrepaidOrder.dropshipperEmail
            wPrepaidOrder.productUid) ∧
    (processOrder [wPrice] [] prmsW initState wPrepaidOrder).uniqueProductAmountOrders
      = addUnique initState.uniqueProductAmountOrders wPrepaidOrder.orderId ∧
    (isCodOrder wPrepaidOrder.mode = false →
      (processOrder [wPrice] [] prmsW initState wPrepaidOrder).codTotal
        = initState.codTotal)) ∧
    (wPrepaidOrder.qty : ℚ) *
      priceLookup [wPrice] wPrepaidOrder.dropshipperEmail wPrepaidOrder.productUid
      = 100 :=
  ⟨claim_C4_delivered_product_cost [wPrice] [] prmsW initState wPrepaidOrder
      (by decide) (by decide),
    by norm_num [priceLookup, wPrice, wPrepaidOrder]⟩

/-- C5: a delivered COD line with delivered date in the delivery window
accumulates exactly the line's stored monetary value into codTotal, and the
codReceived field of its emitted row equals that stored value exactly (no
multiplication by quantity); the hypothesis `productValue = n / 100`
reflects the decimal(10,2) type of the `product_value` column. -/
theorem claim_C5_cod_received_exact (prices : List PriceEntry)
    (rates : List RateEntry) (p : PayoutParams) (st : PayoutState) (o : OrderRow)
    (hcls : classifyStatus o.status o.rtsDate = .Delivered)
    (hW : inDeliveredRange p o = true)
    (hCod : isCodOrder o.mode = true)
    (n : ℤ) (hv : o.productValue = (n : ℚ) / 100) :
    (processOrder prices rates p st o).codTotal = st.codTotal + o.productValue ∧
    (processOrder prices rates p st o).rows.map PayoutRow.codReceived
      = st.rows.map PayoutRow.codReceived ++ [o.productValue] := by
  obtain ⟨hC, hD⟩ := (classify_delivered_iff _ _).mp hcls
  cases hIO : inOrderRange p o <;>
    simp [processOrder, hD, hC, hW, hIO, hCod, hv, round2_intCast_div]

/-- Witness for C5: a delivered COD line with qty 3 and stored value 250.75
adds exactly 250.75 to codTotal and emits a row with codReceived 250.75. -/
theorem claim_C5_witness :
    ((processOrder [] [] prmsW initState wCodOrder).codTotal
      = initState.codTotal + wCodOrder.productValue ∧
    (processOrder [] [] prmsW initState wCodOrder).rows.map PayoutRow.codReceived
      = initState.rows.map PayoutRow.codReceived ++ [wCodOrder.productValue]) ∧
    wCodOrder.productValue = 250.75 ∧ wCodOrder.qty = 3 :=
  ⟨claim_C5_cod_received_exact [] [] prmsW initState wCodOrder
      (by decide) (by decide) (by decide) 25075 (by norm_num [wCodOrder]),
    by norm_num [wCodOrder], by norm_num [wCodOrder]⟩

/-- C9: payment-mode classification: a mode is treated as COD exactly when
its trimmed lower-casing is blank or "cod" (null maps to blank); a delivered
in-window line whose mode is non-COD contributes neither to codTotal nor to
the deduplicated COD-orders set. -/
theorem claim_C9_payment_mode (prices : List PriceEntry)
    (rates : List RateEntry) (p : PayoutParams) (st : PayoutState) (o : OrderRow)
    (hcls : classifyStatus o.status o.rtsDate = .Delivered)
    (hW : inDeliveredRange p o = true)
    (hNC : isCodOrder o.mode = false) :
    (processOrder prices rates p st o).codTotal = st.codTotal ∧
    (processOrder prices rates p st o).uniqueCodOrders = st.uniqueCodOrders ∧
    (∀ m : Option String, isCodOrder m = true ↔
      (normMode m = "cod".data ∨ normMode m = [])) ∧
    isCodOrder none = true ∧ isCodOrder (some "") = true ∧
    isCodOrder (some "COD") = true ∧ isCodOrder (some "Prepaid") = false := by
  obtain ⟨hC, hD⟩ := (classify_delivered_iff _ _).mp hcls
  refine ⟨?_, ?_, ?_, by decide, by decide, by decide, by decide⟩
  · cases hIO : inOrderRange p o <;>
      simp [processOrder, hD, hC, hW, hIO, hNC]
  · cases hIO : inOrderRange p o <;>
      simp [processOrder, hD, hC, hW, hIO, hNC]
  · intro m
    simp [isCodOrder]

/-- Auxiliary: when no rate row matches the product and carrier at all, the
flat shipping rate used for the accumulated cost resolves to 0. -/
theorem flatShippingRate_of_no_config (rates : List RateEntry) (uid : String)
    (w : ℚ) (provider : String)
    (h : ∀ r ∈ rates, ¬(r.productUid = uid ∧ r.shippingProvider = provider)) :
    flatShippingRate rates uid w provider = 0 := by
  have h1 : rates.find? (fun r =>
      r.productUid == uid && decide (r.productWeight = w) &&
        r.shippingProvider == provider) = none := by
    rw [List.find?_eq_none]
    intro r hr
    simp only [Bool.and_eq_true, beq_iff_eq, decide_eq_true_eq, not_and]
    intro hh hp
    exact h r hr ⟨hh.1, hp⟩
  have h2 : rates.find? (fun r =>
      r.productUid == uid && r.shippingProvider == provider &&
        decide (0 < r.rate)) = none := by
    rw [List.find?_eq_none]
    intro r hr
    simp only [Bool.and_eq_true, beq_iff_eq, decide_eq_true_eq, not_and]
    intro hh
    exact absurd ⟨hh.1, hh.2⟩ (h r hr)
  unfold flatShippingRate exactRate anyWeightRate
  rw [h1, h2]
  norm_num

/-- C1 counterexample: with no shipping rate configured at all, a qty-4
in-window order shipped by Delhivery contributes 0 to the shipping total and
its row carries shippingCost 0 — not 4 × defaultRate(Delhivery) = 100 as the
claim states; the default table surfaces only in the displayed shippingRate
field. -/
theorem claim_C1_counterexample :
    (calculatePayouts [cxNoRateOrder] [] [] prmsW).summary.shippingTotal = 0 ∧
    (calculatePayouts [cxNoRateOrder] [] [] prmsW).summary.ordersWithShippingCharges
      = 0 ∧
    (calculatePayouts [cxNoRateOrder] [] [] prmsW).rows.map PayoutRow.shippingCost
      = [0] ∧
    (calculatePayouts [cxNoRateOrder] [] [] prmsW).rows.map PayoutRow.shippingRate
      = [25] ∧
    (cxNoRateOrder.qty : ℚ) * defaultRate cxNoRateOrder.shippingProvider = 100 ∧
    (0 : ℚ) ≠ 100 := by
  have h1 : isExcludedEmail "d@x.com" = false := by decide
  have h2 : isCancelledStatus "Shipped" = false := by decide
  have h3 : isDeliveredStatus "Shipped" = false := by decide
  have h4 : inOrderRange prmsW cxNoRateOrder = true := by decide
  have h5 : inDeliveredRange prmsW cxNoRateOrder = false := by decide
  norm_num [calculatePayouts, rawPayoutState, scopedPayoutOrders, scopedPrices,
    processOrders, groupByOrderId, orderIdsInOrder, addLast, processOrder,
    initState, mkSummary, h1, h2, h3, h4, h5, matchesDropshipper, resolveWeight,
    flatShippingRate, exactRate, anyWeightRate, displayShippingRate,
    defaultRate, round2, jsRound, cxNoRateOrder, prmsW, priceLookup]

/-- C1 amended: for an in-window, non-cancelled line item whose product and
carrier have no configured shipping rate, the charge accumulated into the
shipping total is 0 (quantity × 0 — the per-carrier default table is not
used for the charge), the order is not counted among orders with shipping
charges, and the per-carrier default (global default 25 for an unrecognized
carrier) appears only as the row's displayed shippingRate field. -/
theorem claim_C1_amended (prices : List PriceEntry) (rates : List RateEntry)
    (p : PayoutParams) (st : PayoutState) (o : OrderRow)
    (hW : inOrderRange p o = true)
    (hC : isCancelledStatus o.status = false)
    (hNo : ∀ r ∈ rates,
      ¬(r.productUid = o.productUid ∧ r.shippingProvider = o.shippingProvider)) :
    (processOrder prices rates p st o).shippingTotal = st.shippingTotal ∧
    (processOrder prices rates p st o).uniqueShippingOrders
      = st.uniqueShippingOrders ∧
    (processOrder prices rates p st o).rows.map
        (fun r => (r.shippingCost, r.shippingRate))
      = st.rows.map (fun r => (r.shippingCost, r.shippingRate)) ++
          [(0, defaultRate o.shippingProvider)] := by
  have hflat := flatShippingRate_of_no_config rates o.productUid
    (resolveWeight prices o.dropshipperEmail o.productUid) o.shippingProvider hNo
  have hdisp : displayShippingRate rates o.productUid
      (resolveWeight prices o.dropshipperEmail o.productUid) o.shippingProvider
      = defaultRate o.shippingProvider := by
    unfold displayShippingRate
    rw [hflat]
    norm_num
  cases hD : isDeliveredStatus o.status <;>
    cases hDel : inDeliveredRange p o <;>
      cases hCod : isCodOrder o.mode <;>
        simp [processOrder, hW, hC, hD, hDel, hCod, hflat, hdisp, round2_zero]

/-- Witness for C1 amended: the qty-4 Delhivery order with an unrelated rate
table gets charge 0 and displayed default rate 25. -/
theorem claim_C1_amended_witness :
    (processOrder [] [exRate] prmsW initState cxNoRateOrder).shippingTotal
      = initState.shippingTotal ∧
    (processOrder [] [exRate] prmsW initState cxNoRateOrder).uniqueShippingOrders
      = initState.uniqueShippingOrders ∧
    (processOrder [] [exRate] prmsW initState cxNoRateOrder).rows.map
        (fun r => (r.shippingCost, r.shippingRate))
      = initState.rows.map (fun r => (r.shippingCost, r.shippingRate)) ++
          [(0, defaultRate cxNoRateOrder.shippingProvider)] :=
  claim_C1_amended [] [exRate] prmsW initState cxNoRateOrder
    (by decide) (by decide) (by decide)

/-- Witness for C9: the delivered prepaid line leaves codTotal and the COD
set untouched. -/
theorem claim_C9_witness :
    (processOrder [wPrice] [] prmsW initState wPrepaidOrder).codTotal
      = initState.codTotal ∧
    (processOrder [wPrice] [] prmsW initState wPrepaidOrder).uniqueCodOrders
      = initState.uniqueCodOrders ∧
    (∀ m : Option String, isCodOrder m = true ↔
      (normMode m = "cod".data ∨ normMode m = [])) ∧
    isCodOrder none = true ∧ isCodOrder (some "") = true ∧
    isCodOrder (some "COD") = true ∧ isCodOrder (some "Prepaid") = false :=
  claim_C9_payment_mode [wPrice] [] prmsW initState wPrepaidOrder
    (by decide) (by decide) (by decide)

/-- C6: finalPayable is the single rounding of the raw aggregate difference,
round(codTotal − shippingTotal − productCostTotal + reversalTotal), computed
on the unrounded accumulators; on the concrete example with raw totals
codTotal = 1000.6, shippingTotal = 200.4, productCostTotal = 50 and
reversalTotal = 0 it equals round(750.2) = 750, while the difference of the
individually pre-rounded summary totals is 1001 − 200 − 50 = 751. -/
theorem claim_C6_single_rounding :
    (∀ (os : List OrderRow) (prices : List PriceEntry) (rates : List RateEntry)
      (p : PayoutParams),
      (calculatePayouts os prices rates p).summary.finalPayable
        = jsRound ((rawPayoutState os prices rates p).codTotal
            - (rawPayoutState os prices rates p).shippingTotal
            - (rawPayoutState os prices rates p).productCostTotal
            + (rawPayoutState os prices rates p).rtsRtoReversalTotal)) ∧
    (rawPayoutState [exCodOrder, exShipOrder] [exPrice] [exRate] prmsW).codTotal
      = 1000.6 ∧
    (rawPayoutState [exCodOrder, exShipOrder] [exPrice] [exRate] prmsW).shippingTotal
      = 200.4 ∧
    (rawPayoutState [exCodOrder, exShipOrder] [exPrice] [exRate] prmsW).productCostTotal
      = 50 ∧
    (calculatePayouts [exCodOrder, exShipOrder] [exPrice] [exRate] prmsW).summary.finalPayable
      = 750 ∧
    ((calculatePayouts [exCodOrder, exShipOrder] [exPrice] [exRate] prmsW).summary.codTotal
      - (calculatePayouts [exCodOrder, exShipOrder] [exPrice] [exRate] prmsW).summary.shippingTotal
      - (calculatePayouts [exCodOrder, exShipOrder] [exPrice] [exRate] prmsW).summary.productCostTotal
      + (calculatePayouts [exCodOrder, exShipOrder] [exPrice] [exRate] prmsW).summary.rtsRtoReversalTotal)
      = 751 := by
  have hgen : ∀ (os : List OrderRow) (prices : List PriceEntry)
      (rates : List RateEntry) (p : PayoutParams),
      (calculatePayouts os prices rates p).summary.finalPayable
        = jsRound ((rawPayoutState os prices rates p).codTotal
            - (rawPayoutState os prices rates p).shippingTotal
            - (rawPayoutState os prices rates p).productCostTotal
            + (rawPayoutState os prices rates p).rtsRtoReversalTotal) :=
    fun _ _ _ _ => rfl
  have hcodStep : ∀ st : PayoutState,
      (processOrder [exPrice] [exRate] prmsW st exCodOrder).shippingTotal
        = st.shippingTotal ∧
      (processOrder [exPrice] [exRate] prmsW st exCodOrder).codTotal
        = st.codTotal + 1000.6 ∧
      (processOrder [exPrice] [exRate] prmsW st exCodOrder).productCostTotal
        = st.productCostTotal + 50 ∧
      (processOrder [exPrice] [exRate] prmsW st exCodOrder).rtsRtoReversalTotal
        = st.rtsRtoReversalTotal := by
    intro st
    have a1 : isCancelledStatus exCodOrder.status = false := by decide
    have a2 : isDeliveredStatus exCodOrder.status = true := by decide
    have a3 : inOrderRange prmsW exCodOrder = false := by decide
    have a4 : inDeliveredRange prmsW exCodOrder = true := by decide
    have a5 : isCodOrder exCodOrder.mode = true := by decide
    have a6 : priceLookup [exPrice] exCodOrder.dropshipperEmail
        exCodOrder.productUid = 50 := by
      norm_num [priceLookup, exPrice, exCodOrder]
    have a7 : ((exCodOrder.qty : ℕ) : ℚ) = 1 := by norm_num [exCodOrder]
    have a8 : exCodOrder.productValue = 1000.6 := by norm_num [exCodOrder]
    norm_num [processOrder, a1, a2, a3, a4, a5, a6, a7, a8]
  have hshipStep : ∀ st : PayoutState,
      (processOrder [exPrice] [exRate] prmsW st exShipOrder).shippingTotal
        = st.shippingTotal + 200.4 ∧
      (processOrder [exPrice] [exRate] prmsW st exShipOrder).codTotal
        = st.codTotal ∧
      (processOrder [exPrice] [exRate] prmsW st exShipOrder).productCostTotal
        = st.productCostTotal ∧
      (processOrder [exPrice] [exRate] prmsW st exShipOrder).rtsRtoReversalTotal
        = st.rtsRtoReversalTotal := by
    intro st
    have b1 : isCancelledStatus exShipOrder.status = false := by decide
    have b2 : isDeliveredStatus exShipOrder.status = false := by decide
    have b3 : inOrderRange prmsW exShipOrder = true := by decide
    have b4 : inDeliveredRange prmsW exShipOrder = false := by decide
    have hne : ("PA" : String) ≠ "PB" := by decide
    have b5 : resolveWeight [exPrice] exShipOrder.dropshipperEmail
        exShipOrder.productUid = 0.5 := by
      norm_num [resolveWeight, exPrice, exShipOrder, hne]
    have b6 : flatShippingRate [exRate] exShipOrder.productUid (1/2)
        exShipOrder.shippingProvider = 66.8 := by
      norm_num [flatShippingRate, exactRate, anyWeightRate, exRate, exShipOrder]
    have b7 : ((exShipOrder.qty : ℕ) : ℚ) = 3 := by norm_num [exShipOrder]
    norm_num [processOrder, b1, b2, b3, b4, b5, b6, b7]
    norm_num [round2, jsRound]
  have hfold : rawPayoutState [exCodOrder, exShipOrder] [exPrice] [exRate] prmsW
      = processOrder [exPrice] [exRate] prmsW
          (processOrder [exPrice] [exRate] prmsW initState exCodOrder)
          exShipOrder := by
    have hscope : scopedPayoutOrders [exCodOrder, exShipOrder] prmsW
        = [exCodOrder, exShipOrder] := by rfl
    have hpr : scopedPrices [exPrice] prmsW = [exPrice] := by rfl
    have hgrp : groupByOrderId [exCodOrder, exShipOrder]
        = [exCodOrder, exShipOrder] := by rfl
    rw [rawPayoutState, hscope, hpr, processOrders, hgrp]
    rfl
  have hc : (rawPayoutState [exCodOrder, exShipOrder] [exPrice] [exRate]
      prmsW).codTotal = 1000.6 := by
    rw [hfold, (hshipStep _).2.1, (hcodStep initState).2.1]
    norm_num [initState]
  have hs : (rawPayoutState [exCodOrder, exShipOrder] [exPrice] [exRate]
      prmsW).shippingTotal = 200.4 := by
    rw [hfold, (hshipStep _).1, (hcodStep initState).1]
    norm_num [initState]
  have hp : (rawPayoutState [exCodOrder, exShipOrder] [exPrice] [exRate]
      prmsW).productCostTotal = 50 := by
    rw [hfold, (hshipStep _).2.2.1, (hcodStep initState).2.2.1]
    norm_num [initState]
  have hr : (rawPayoutState [exCodOrder, exShipOrder] [exPrice] [exRate]
      prmsW).rtsRtoReversalTotal = 0 := by
    rw [hfold, (hshipStep _).2.2.2, (hcodStep initState).2.2.2]
    norm_num [initState]
  refine ⟨hgen, hc, hs, hp, ?_, ?_⟩
  · rw [hgen, hc, hs, hp, hr]
    norm_num [jsRound]
  · show (mkSummary _).codTotal - (mkSummary _).shippingTotal
      - (mkSummary _).productCostTotal + (mkSummary _).rtsRtoReversalTotal = 751
    simp only [mkSummary]
    rw [hc, hs, hp, hr]
    norm_num [jsRound]

/-! ## Detector helper lemmas -/

theorem insertSug_perm (a : Suggestion) (l : List Suggestion) :
    (insertSug a l).Perm (a :: l) := by
  induction l with
  | nil => simp [insertSug]
  | cons b bs ih =>
    rw [insertSug]
    by_cases h : sugBefore a b = true
    · rw [if_pos h]
    · rw [if_neg h]
      exact (ih.cons b).trans (List.Perm.swap a b bs)

theorem sortSugs_perm (l : List Suggestion) : (sortSugs l).Perm l := by
  induction l with
  | nil => simp [sortSugs]
  | cons a as ih =>
    rw [sortSugs]
    exact (insertSug_perm a (sortSugs as)).trans (ih.cons a)

theorem mem_sortSugs (s : Suggestion) (l : List Suggestion) :
    s ∈ sortSugs l ↔ s ∈ l :=
  (sortSugs_perm l).mem_iff

theorem countP_sortSugs (q : Suggestion → Bool) (l : List Suggestion) :
    (sortSugs l).countP q = l.countP q :=
  (sortSugs_perm l).countP_eq q

theorem mkSuggestion_orderId (A : List OrderRow) (P : List PayoutLogEntry)
    (o : OrderRow) : (mkSuggestion A P o).orderId = o.orderId := by
  cases h1 : detectAdjacent (historyFor A o.orderId) <;>
    cases h2 : payoutFind P o.orderId <;>
      simp [mkSuggestion, h1, h2]

theorem mkSuggestion_statusChange (A : List OrderRow) (P : List PayoutLogEntry)
    (o : OrderRow) : (mkSuggestion A P o).statusChangeDetected
      = detectAdjacent (historyFor A o.orderId) := by
  cases h1 : detectAdjacent (historyFor A o.orderId) <;>
    cases h2 : payoutFind P o.orderId <;>
      simp [mkSuggestion, h1, h2]

theorem mkSuggestion_high (A : List OrderRow) (P : List PayoutLogEntry)
    (o : OrderRow) (pp : PayoutLogEntry)
    (h1 : detectAdjacent (historyFor A o.orderId) = true)
    (h2 : payoutFind P o.orderId = some pp) :
    (mkSuggestion A P o).confidence = .high ∧
    (mkSuggestion A P o).suggestedReversalAmount = round2 pp.paidAmount := by
  simp [mkSuggestion, h1, h2]

theorem mem_autoDetect (allOrders : List OrderRow)
    (payouts : List PayoutLogEntry) (ledger : List String) (pFrom pTo : Int)
    (dEmail : Option String) (s : Suggestion) :
    s ∈ autoDetectRtsRtoReconciliations allOrders payouts ledger pFrom pTo dEmail
      ↔ ∃ o, o ∈ keptCurrentRows allOrders ledger pFrom pTo dEmail ∧
          s = mkSuggestion (scopedOf allOrders dEmail) payouts o := by
  rw [autoDetectRtsRtoReconciliations, mem_sortSugs, List.mem_map]
  constructor
  · rintro ⟨o, ho, h⟩
    exact ⟨o, ho, h.symm⟩
  · rintro ⟨o, ho, h⟩
    exact ⟨o, ho, h.symm⟩

theorem detectAdjacent_iff :
    (l : List OrderRow) → (detectAdjacent l = true ↔ AdjacentTransition l)
  | [] => by
    constructor
    · intro h
      simp [detectAdjacent] at h
    · rintro ⟨i, hi, -⟩
      simp at hi
  | [a] => by
    constructor
    · intro h
      simp [detectAdjacent] at h
    · rintro ⟨i, hi, -⟩
      simp only [List.length_cons, List.length_nil] at hi
      omega
  | a :: b :: rest => by
    have hdef : detectAdjacent (a :: b :: rest)
        = ((delMatch a.status && rtsExactStatuses.contains b.status) ||
            detectAdjacent (b :: rest)) := rfl
    have ih := detectAdjacent_iff (b :: rest)
    constructor
    · intro h
      rw [hdef, Bool.or_eq_true] at h
      cases h with
      | inl h1 =>
        rw [Bool.and_eq_true] at h1
        obtain ⟨hd, hr⟩ := h1
        exact ⟨0, by simp, hd, hr⟩
      | inr h2 =>
        obtain ⟨i, hi, hd, hr⟩ := ih.mp h2
        exact ⟨i + 1, Nat.succ_lt_succ hi, hd, hr⟩
    · rintro ⟨i, hi, hd, hr⟩
      rw [hdef, Bool.or_eq_true]
      match i, hi, hd, hr with
      | 0, hi, hd, hr =>
        left
        rw [Bool.and_eq_true]
        exact ⟨hd, hr⟩
      | j + 1, hi, hd, hr =>
        right
        exact ih.mpr ⟨j, Nat.lt_of_succ_lt_succ hi, hd, hr⟩

/-- C7: an order identifier present in the reconciliation ledger — in
particular after confirmReconciliation for it — is never suggested again by
autoDetectRtsRtoReconciliations. -/
theorem claim_C7_idempotent (allOrders : List OrderRow)
    (payouts : List PayoutLogEntry) (ledger : List String) (pFrom pTo : Int)
    (dEmail : Option String) (oid : String) (h : oid ∈ ledger) :
    oid ∉ (autoDetectRtsRtoReconciliations allOrders payouts ledger pFrom pTo
      dEmail).map Suggestion.orderId := by
  intro hmem
  rw [List.mem_map] at hmem
  obtain ⟨s, hs, hsid⟩ := hmem
  rw [mem_autoDetect] at hs
  obtain ⟨o, ho, rfl⟩ := hs
  rw [keptCurrentRows, List.mem_filter] at ho
  obtain ⟨-, hno⟩ := ho
  rw [mkSuggestion_orderId] at hsid
  rw [Bool.not_eq_true', List.contains_eq_any_beq] at hno
  have : ledger.any (fun x => o.orderId == x) = true := by
    rw [List.any_eq_true]
    exact ⟨oid, h, by simp [hsid]⟩
  rw [this] at hno
  cases hno

/-- Witness for C7: after confirming order A1, the detector run on a history
that would otherwise suggest A1 returns nothing for it. -/
theorem claim_C7_witness :
    "A1" ∉ (autoDetectRtsRtoReconciliations [dA1, dA2] [payoutA1]
      (confirmReconciliation [] "A1") 0 20 none).map Suggestion.orderId :=
  claim_C7_idempotent [dA1, dA2] [payoutA1] (confirmReconciliation [] "A1")
    0 20 none "A1" (by decide)

/-- C2 counterexample: order T1's id-ordered history is Delivered, Shipped,
RTO — an earlier snapshot classifying as Delivered and a later one
classifying as ReturnInProgress, but not adjacently — yet the detector
reports no status change (and thus not the high confidence detection the
claim implies): the scan only inspects immediately adjacent pairs. -/
theorem claim_C2_counterexample :
    (autoDetectRtsRtoReconciliations [dT1, dT2, dT3] [] [] 0 20 none).map
        Suggestion.statusChangeDetected = [false] ∧
    (autoDetectRtsRtoReconciliations [dT1, dT2, dT3] [] [] 0 20 none).map
        Suggestion.confidence = [.low] ∧
    classifyStatus dT1.status dT1.rtsDate = .Delivered ∧
    classifyStatus dT3.status dT3.rtsDate = .ReturnInProgress ∧
    dT1.id < dT3.id ∧
    historyFor (scopedOf [dT1, dT2, dT3] none) "T1" = [dT1, dT2, dT3] := by
  have hk : keptCurrentRows [dT1, dT2, dT3] [] 0 20 none = [dT3] := rfl
  have hone : autoDetectRtsRtoReconciliations [dT1, dT2, dT3] [] [] 0 20 none
      = [mkSuggestion (scopedOf [dT1, dT2, dT3] none) [] dT3] := by
    rw [autoDetectRtsRtoReconciliations, hk]
    rfl
  have hdet : detectAdjacent (historyFor (scopedOf [dT1, dT2, dT3] none)
      dT3.orderId) = false := by decide
  have hpay : payoutFind ([] : List PayoutLogEntry) dT3.orderId = none := rfl
  refine ⟨?_, ?_, by decide, by decide, by decide, by rfl⟩
  · rw [hone]
    simp [List.map_cons, mkSuggestion_statusChange, hdet]
  · rw [hone]
    simp [List.map_cons, mkSuggestion, hdet, hpay]

/-- C2 amended: for every suggestion the detector emits, a transition is
reported exactly when some *adjacent* pair of the order's id-sorted snapshot
history has an earlier status containing "del"/"delivered" (case-insensitive)
immediately followed by a snapshot whose status is exactly one of RTS, RTO,
RTO-Dispatched, RTO-IT (the first such pair wins); non-adjacent
delivered-then-returned patterns are not detected. -/
theorem claim_C2_amended (allOrders : List OrderRow)
    (payouts : List PayoutLogEntry) (ledger : List String) (pFrom pTo : Int)
    (dEmail : Option String) (s : Suggestion)
    (hs : s ∈ autoDetectRtsRtoReconciliations allOrders payouts ledger pFrom
      pTo dEmail) :
    s.statusChangeDetected = true ↔
      AdjacentTransition (historyFor (scopedOf allOrders dEmail) s.orderId) := by
  rw [mem_autoDetect] at hs
  obtain ⟨o, ho, rfl⟩ := hs
  rw [mkSuggestion_statusChange, mkSuggestion_orderId]
  exact detectAdjacent_iff _

/-- Witness for C2 amended: the suggestion emitted for the adjacent
Delivered-then-RTO history of order A1. -/
theorem claim_C2_amended_witness :
    (mkSuggestion (scopedOf [dA1, dA2] none) [payoutA1] dA2).statusChangeDetected
        = true ↔
      AdjacentTransition (historyFor (scopedOf [dA1, dA2] none)
        (mkSuggestion (scopedOf [dA1, dA2] none) [payoutA1] dA2).orderId) :=
  claim_C2_amended [dA1, dA2] [payoutA1] [] 0 20 none _ (by
    rw [mem_autoDetect]
    refine ⟨dA2, ?_, rfl⟩
    have hk : keptCurrentRows [dA1, dA2] [] 0 20 none = [dA2] := rfl
    rw [hk]
    exact List.mem_cons_self dA2 [])

/-- C8 counterexample: order A1 has a detected Delivered-to-RTO transition
and a prior payout, but its history carries two current in-window RTO rows,
so the detector emits two suggestions for A1 — not exactly one as the claim
states (the loop runs once per current RTS/RTO row, not per order). -/
theorem claim_C8_counterexample :
    ((autoDetectRtsRtoReconciliations [dA1, dA2, dA3] [payoutA1] [] 0 20
      none).countP (fun s => s.orderId == "A1")) = 2 ∧
    detectAdjacent (historyFor (scopedOf [dA1, dA2, dA3] none) "A1") = true ∧
    (payoutFind [payoutA1] "A1").isSome = true := by
  refine ⟨?_, by decide, by rfl⟩
  rw [autoDetectRtsRtoReconciliations, countP_sortSugs, List.countP_map]
  have hpred : ∀ o ∈ keptCurrentRows [dA1, dA2, dA3] [] 0 20 none,
      ((((fun s => s.orderId == "A1") ∘
        mkSuggestion (scopedOf [dA1, dA2, dA3] none) [payoutA1]) o) = true
        ↔ (o.orderId == "A1") = true) := by
    intro o _
    simp [Function.comp, mkSuggestion_orderId]
  rw [List.countP_congr hpred]
  decide

/-- C8 amended: the detector emits one suggestion per current in-window
RTS/RTO row; for an order with exactly one such unreconciled row, a detected
adjacent transition and a prior payout, it emits exactly one suggestion for
that order, with high confidence and a reversal amount equal to the prior
paid amount (a decimal(10,2) value, unchanged by the final rounding). -/
theorem claim_C8_amended (allOrders : List OrderRow)
    (payouts : List PayoutLogEntry) (ledger : List String) (pFrom pTo : Int)
    (dEmail : Option String) (k : String) (pp : PayoutLogEntry) (n : ℤ)
    (hcount : (keptCurrentRows allOrders ledger pFrom pTo dEmail).countP
      (fun o => o.orderId == k) = 1)
    (hdet : detectAdjacent (historyFor (scopedOf allOrders dEmail) k) = true)
    (hpay : payoutFind payouts k = some pp)
    (hdec : pp.paidAmount = (n : ℚ) / 100) :
    ((autoDetectRtsRtoReconciliations allOrders payouts ledger pFrom pTo
      dEmail).countP (fun s => s.orderId == k)) = 1 ∧
    (∀ s ∈ autoDetectRtsRtoReconciliations allOrders payouts ledger pFrom pTo
      dEmail, s.orderId = k →
        s.confidence = .high ∧ s.suggestedReversalAmount = pp.paidAmount) := by
  constructor
  · rw [autoDetectRtsRtoReconciliations, countP_sortSugs, List.countP_map]
    have hpred : ∀ o ∈ keptCurrentRows allOrders ledger pFrom pTo dEmail,
        ((((fun s => s.orderId == k) ∘
          mkSuggestion (scopedOf allOrders dEmail) payouts) o) = true
          ↔ (o.orderId == k) = true) := by
      intro o _
      simp [Function.comp, mkSuggestion_orderId]
    rw [List.countP_congr hpred]
    exact hcount
  · intro s hs hk
    rw [mem_autoDetect] at hs
    obtain ⟨o, ho, rfl⟩ := hs
    rw [mkSuggestion_orderId] at hk
    have hdet2 : detectAdjacent (historyFor (scopedOf allOrders dEmail)
        o.orderId) = true := by rw [hk]; exact hdet
    have hpay2 : payoutFind payouts o.orderId = some pp := by
      rw [hk]; exact hpay
    obtain ⟨hc, ha⟩ := mkSuggestion_high _ _ _ _ hdet2 hpay2
    refine ⟨hc, ?_⟩
    rw [ha, hdec, round2_intCast_div]

/-- Witness for C8 amended: the spec's A1 scenario — snapshots Delivered then
RTO, payout 300 — yields exactly one suggestion, high confidence, reversal
300. -/
theorem claim_C8_witness :
    ((autoDetectRtsRtoReconciliations [dA1, dA2] [payoutA1] [] 0 20
      none).countP (fun s => s.orderId == "A1")) = 1 ∧
    (∀ s ∈ autoDetectRtsRtoReconciliations [dA1, dA2] [payoutA1] [] 0 20 none,
      s.orderId = "A1" →
        s.confidence = .high ∧ s.suggestedReversalAmount = payoutA1.paidAmount) :=
  claim_C8_amended [dA1, dA2] [payoutA1] [] 0 20 none "A1" payoutA1 30000
    (by decide) (by decide) rfl (by norm_num [payoutA1])

end Dropship
